import Mathlib

/-!
Verification of the postcodes.io browser front end (src/main.js).

The JavaScript source is shallowly embedded: JSON-compatible values become the
inductive type `JVal`; the recursive HTML renderer `generateHTML`, the escaping
helper `escapeHTML` and each button click handler are translated into pure Lean
functions. DOM and network effects of a handler are recorded as an explicit
trace of events (`Ev`): clearing the results area, issuing a GET or POST, and
appending a result card. Host-platform primitives used by the source
(`fetch`, `JSON.parse`, `encodeURIComponent`, `String.prototype.trim`,
`toUpperCase`, `split`) are modelled as explicit oracle inputs or as small
executable models of their specified behaviour.
-/

/-- A JSON-compatible JavaScript value: `undefined`, `null`, a primitive
(string / number / boolean), an array, or an object (an ordered list of
string-keyed entries). Numbers are modelled as integers. -/
inductive JVal where
  | undefined
  | null
  | str (s : String)
  | num (n : Int)
  | bool (b : Bool)
  | arr (items : List JVal)
  | obj (entries : List (String × JVal))

/-- Look an entry up in an object's entry list (first match wins). -/
def getEntry : List (String × JVal) → String → JVal
  | [], _ => .undefined
  | (k, x) :: rest, key => if k = key then x else getEntry rest key

/-- JavaScript property access `v.key`: a field of an object, `undefined`
otherwise. -/
def JVal.get (v : JVal) (key : String) : JVal :=
  match v with
  | .obj entries => getEntry entries key
  | _ => .undefined

/-- `Array.isArray(v)`. -/
def JVal.isArr : JVal → Bool
  | .arr _ => true
  | _ => false

/-- JavaScript truthiness of a value (`if (v)`). -/
def truthy : JVal → Bool
  | .undefined => false
  | .null => false
  | .str s => !(s == "")
  | .num n => !(n == 0)
  | .bool b => b
  | .arr _ => true
  | .obj _ => true

/-- JavaScript strict equality `v === n` against a number literal. -/
def JVal.strictEqNum (v : JVal) (n : Int) : Bool :=
  match v with
  | .num m => m == n
  | _ => false

mutual
/-- JavaScript string coercion `String(v)` as used by template literals. -/
def jsToString : JVal → String
  | .undefined => "undefined"
  | .null => "null"
  | .str s => s
  | .num n => toString n
  | .bool b => if b then "true" else "false"
  | .arr items => jsArrToString items
  | .obj _ => "[object Object]"

/-- `Array.prototype.toString`: elements joined by commas, with `null` and
`undefined` elements rendered as empty strings. -/
def jsArrToString : List JVal → String
  | [] => ""
  | v :: rest =>
    (match v with
     | .null => ""
     | .undefined => ""
     | w => jsToString w) ++ (if rest.isEmpty then "" else ",") ++ jsArrToString rest
end

/-- Models `String.prototype.trim`: strip leading and trailing whitespace. -/
def jsTrim (s : String) : String :=
  String.mk (((s.data.dropWhile Char.isWhitespace).reverse.dropWhile Char.isWhitespace).reverse)

/-- Models `String.prototype.toUpperCase`. -/
def jsToUpperCase (s : String) : String := String.mk (s.data.map Char.toUpper)

/-- Split a character list at every character satisfying `p`, keeping empty
pieces, as `String.prototype.split` does with a single-character alternation
regex. -/
def splitChars (p : Char → Bool) : List Char → List (List Char)
  | [] => [[]]
  | c :: cs =>
    if p c then [] :: splitChars p cs
    else
      match splitChars p cs with
      | [] => [[c]]
      | piece :: rest => (c :: piece) :: rest

/-- Models `value.split(/\n|,/)`. -/
def jsSplitNewlineComma (s : String) : List String :=
  (splitChars (fun c => c == '\n' || c == ',') s.data).map String.mk

/-- `escapeHTML` from src/main.js line 5: one global single-character regex
replacement pass. `replaceChar pat rep l` models `l.replace(/pat/g, rep)`. -/
def replaceChar (pat : Char) (rep : List Char) : List Char → List Char
  | [] => []
  | c :: cs => (if c = pat then rep else [c]) ++ replaceChar pat rep cs

/-- The chained replacements of `escapeHTML` (src/main.js lines 5-12), on
character lists: `&` first, then `<`, `>`, `"`, and the apostrophe. -/
def escapeList (s : List Char) : List Char :=
  replaceChar '\x27' "&#039;".data
    (replaceChar '"' "&quot;".data
      (replaceChar '>' "&gt;".data
        (replaceChar '<' "&lt;".data
          (replaceChar '&' "&amp;".data s))))

/-- `escapeHTML` from src/main.js: escape the five reserved markup
characters. -/
def escapeHTML (s : String) : String := String.mk (escapeList s.data)

mutual
/-- `generateHTML` from src/main.js lines 23-44: recursively convert a value
into nested UL/LI markup. `null`/`undefined` give a fixed marker, other
primitives are stringified and escaped, arrays become a UL of LI items and
objects a UL of key/value LI rows with escaped keys. -/
def generateHTML : JVal → List Char
  | .null => "<span class=\"null\">null</span>".data
  | .undefined => "<span class=\"null\">null</span>".data
  | .str s => escapeList s.data
  | .num n => escapeList (toString n).data
  | .bool b => escapeList (if b then "true" else "false").data
  | .arr items => "<ul>".data ++ generateItems items ++ "</ul>".data
  | .obj entries => "<ul>".data ++ generateRows entries ++ "</ul>".data

/-- The joined `<li>…</li>` items of an array (src/main.js lines 31-33). -/
def generateItems : List JVal → List Char
  | [] => []
  | v :: rest => "<li>".data ++ generateHTML v ++ "</li>".data ++ generateItems rest

/-- The joined key/value rows of an object (src/main.js lines 37-42). -/
def generateRows : List (String × JVal) → List Char
  | [] => []
  | (k, v) :: rest =>
    "<li><strong>".data ++ escapeList k.data ++ ":</strong> ".data ++ generateHTML v ++
      "</li>".data ++ generateRows rest
end

/-- The fixed marker produced for `null` and `undefined`. -/
def nullMarker : List Char := "<span class=\"null\">null</span>".data

/-- Origin of an output character: fixed markup template text written by
`generateHTML` itself, or content coming from the rendered value (leaf strings,
stringified primitives, object keys). -/
inductive Origin where
  | template
  | content
deriving DecidableEq

/-- Tag every character of a template fragment. -/
def ttag (s : String) : List (Char × Origin) := s.data.map (fun c => (c, Origin.template))

/-- Tag every character of a content fragment. -/
def ctag (l : List Char) : List (Char × Origin) := l.map (fun c => (c, Origin.content))

mutual
/-- `generateHTML` instrumented with character origins: the same recursion,
with template fragments tagged `Origin.template` and every fragment that came
from the value (always routed through `escapeList`, as in the source) tagged
`Origin.content`. -/
def generateTagged : JVal → List (Char × Origin)
  | .null => ttag "<span class=\"null\">null</span>"
  | .undefined => ttag "<span class=\"null\">null</span>"
  | .str s => ctag (escapeList s.data)
  | .num n => ctag (escapeList (toString n).data)
  | .bool b => ctag (escapeList (if b then "true" else "false").data)
  | .arr items => ttag "<ul>" ++ taggedItems items ++ ttag "</ul>"
  | .obj entries => ttag "<ul>" ++ taggedRows entries ++ ttag "</ul>"

/-- Tagged counterpart of `generateItems`. -/
def taggedItems : List JVal → List (Char × Origin)
  | [] => []
  | v :: rest => ttag "<li>" ++ generateTagged v ++ ttag "</li>" ++ taggedItems rest

/-- Tagged counterpart of `generateRows`. -/
def taggedRows : List (String × JVal) → List (Char × Origin)
  | [] => []
  | (k, v) :: rest =>
    ttag "<li><strong>" ++ ctag (escapeList k.data) ++ ttag ":</strong> " ++ generateTagged v ++
      ttag "</li>" ++ taggedRows rest
end

/-- The five reserved markup characters. -/
def reservedChars : List Char := ['&', '<', '>', '"', '\x27']

/-- The five character-entity replacements used by `escapeHTML`. -/
def entityList : List (List Char) :=
  ["&amp;".data, "&lt;".data, "&gt;".data, "&quot;".data, "&#039;".data]

/-- A tagged character sequence in which every content-origin character is
either a non-reserved character or part of a complete character entity:
content contributes no unescaped reserved character. Template characters are
unconstrained. -/
inductive ContentSafe : List (Char × Origin) → Prop where
  | nil : ContentSafe []
  | tmplChar (c : Char) (rest : List (Char × Origin)) :
      ContentSafe rest → ContentSafe ((c, Origin.template) :: rest)
  | safeChar (c : Char) (rest : List (Char × Origin)) (hc : c ∉ reservedChars) :
      ContentSafe rest → ContentSafe ((c, Origin.content) :: rest)
  | entity (e : List Char) (rest : List (Char × Origin)) (he : e ∈ entityList) :
      ContentSafe rest → ContentSafe (ctag e ++ rest)

/-- Per-character view of the escaping chain: what one input character
contributes to the output of `escapeHTML`. -/
def escapeCharFM (c : Char) : List Char :=
  if c = '&' then "&amp;".data
  else if c = '<' then "&lt;".data
  else if c = '>' then "&gt;".data
  else if c = '"' then "&quot;".data
  else if c = '\x27' then "&#039;".data
  else [c]

/-- Concatenation of the per-character contributions. -/
def escapeSpec : List Char → List Char
  | [] => []
  | c :: cs => escapeCharFM c ++ escapeSpec cs

theorem replaceChar_append (pat : Char) (rep : List Char) (a b : List Char) :
    replaceChar pat rep (a ++ b) = replaceChar pat rep a ++ replaceChar pat rep b := by
  induction a with
  | nil => rfl
  | cons c cs ih => simp [replaceChar, ih]

theorem escapeList_append (a b : List Char) :
    escapeList (a ++ b) = escapeList a ++ escapeList b := by
  simp [escapeList, replaceChar_append]

theorem escapeList_single (c : Char) : escapeList [c] = escapeCharFM c := by
  by_cases h1 : c = '&'
  · subst h1; rfl
  by_cases h2 : c = '<'
  · subst h2; rfl
  by_cases h3 : c = '>'
  · subst h3; rfl
  by_cases h4 : c = '"'
  · subst h4; rfl
  by_cases h5 : c = '\x27'
  · subst h5; rfl
  simp [escapeList, escapeCharFM, replaceChar, h1, h2, h3, h4, h5]

/-- The chained global replacements of `escapeHTML` coincide with one
character-by-character escaping pass. -/
theorem escapeList_eq_escapeSpec (l : List Char) : escapeList l = escapeSpec l := by
  induction l with
  | nil => rfl
  | cons c cs ih =>
    have h : escapeList (c :: cs) = escapeList [c] ++ escapeList cs := by
      have := escapeList_append [c] cs
      simpa using this
    rw [h, ih, escapeList_single, escapeSpec]

theorem ttag_map_fst (s : String) : (ttag s).map Prod.fst = s.data := by
  simp [ttag, List.map_map]
  exact List.map_id _

theorem ctag_map_fst (l : List Char) : (ctag l).map Prod.fst = l := by
  simp [ctag, List.map_map]
  exact List.map_id _

theorem sizeOf_lt_of_mem_arr {v : JVal} {items : List JVal} (h : v ∈ items) :
    sizeOf v < sizeOf (JVal.arr items) := by
  have h1 := List.sizeOf_lt_of_mem h
  simp only [JVal.arr.sizeOf_spec]
  omega

theorem sizeOf_lt_of_mem_obj {k : String} {v : JVal} {entries : List (String × JVal)}
    (h : (k, v) ∈ entries) : sizeOf v < sizeOf (JVal.obj entries) := by
  have h1 := List.sizeOf_lt_of_mem h
  have h2 : sizeOf v < sizeOf (k, v) := by simp
  simp only [JVal.obj.sizeOf_spec]
  omega

theorem taggedItems_map_fst (items : List JVal)
    (ih : ∀ v ∈ items, (generateTagged v).map Prod.fst = generateHTML v) :
    (taggedItems items).map Prod.fst = generateItems items := by
  induction items with
  | nil => simp [taggedItems, generateItems]
  | cons v rest ihr =>
    simp only [taggedItems, generateItems, List.map_append, ttag_map_fst]
    rw [ih v (by simp), ihr (fun w hw => ih w (by simp [hw]))]

theorem taggedRows_map_fst (entries : List (String × JVal))
    (ih : ∀ p ∈ entries, (generateTagged p.2).map Prod.fst = generateHTML p.2) :
    (taggedRows entries).map Prod.fst = generateRows entries := by
  induction entries with
  | nil => simp [taggedRows, generateRows]
  | cons p rest ihr =>
    obtain ⟨k, v⟩ := p
    simp only [taggedRows, generateRows, List.map_append, ttag_map_fst, ctag_map_fst]
    rw [ih (k, v) (by simp), ihr (fun q hq => ih q (by simp [hq]))]

/-- The tagged renderer is an instrumentation of `generateHTML`: dropping the
origin tags gives back exactly the markup the source produces. -/
theorem generateTagged_map_fst (v : JVal) :
    (generateTagged v).map Prod.fst = generateHTML v := by
  have main : ∀ (n : Nat) (w : JVal), sizeOf w = n →
      (generateTagged w).map Prod.fst = generateHTML w := by
    intro n
    induction n using Nat.strong_induction_on with
    | _ n ih =>
      intro w hw
      cases w with
      | undefined => simp [generateTagged, generateHTML, ttag_map_fst]
      | null => simp [generateTagged, generateHTML, ttag_map_fst]
      | str s => simp [generateTagged, generateHTML, ctag_map_fst]
      | num m => simp [generateTagged, generateHTML, ctag_map_fst]
      | bool b => simp [generateTagged, generateHTML, ctag_map_fst]
      | arr items =>
        simp only [generateTagged, generateHTML, List.map_append, ttag_map_fst]
        rw [taggedItems_map_fst items
          (fun x hx => ih (sizeOf x) (by rw [← hw]; exact sizeOf_lt_of_mem_arr hx) x rfl)]
      | obj entries =>
        simp only [generateTagged, generateHTML, List.map_append, ttag_map_fst]
        rw [taggedRows_map_fst entries
          (fun p hp => ih (sizeOf p.2)
            (by rw [← hw]; exact sizeOf_lt_of_mem_obj (k := p.1) (by simpa using hp)) p.2 rfl)]
  exact main (sizeOf v) v rfl

theorem ContentSafe.append {a b : List (Char × Origin)}
    (ha : ContentSafe a) (hb : ContentSafe b) : ContentSafe (a ++ b) := by
  induction ha with
  | nil => simpa using hb
  | tmplChar c rest _ ih => exact ContentSafe.tmplChar c (rest ++ b) ih
  | safeChar c rest hc _ ih => exact ContentSafe.safeChar c (rest ++ b) hc ih
  | entity e rest he _ ih =>
    rw [List.append_assoc]
    exact ContentSafe.entity e (rest ++ b) he ih

theorem contentSafe_ttag (s : String) : ContentSafe (ttag s) := by
  show ContentSafe (s.data.map fun c => (c, Origin.template))
  induction s.data with
  | nil => exact ContentSafe.nil
  | cons c cs ih => exact ContentSafe.tmplChar c _ ih

theorem contentSafe_ctag_escape (l : List Char) : ContentSafe (ctag (escapeList l)) := by
  rw [escapeList_eq_escapeSpec]
  induction l with
  | nil => exact ContentSafe.nil
  | cons c cs ih =>
    show ContentSafe (ctag (escapeCharFM c ++ escapeSpec cs))
    have hsplit : ctag (escapeCharFM c ++ escapeSpec cs) =
        ctag (escapeCharFM c) ++ ctag (escapeSpec cs) := by simp [ctag]
    rw [hsplit]
    by_cases h1 : c = '&'
    · exact h1 ▸ ContentSafe.entity "&amp;".data _ (by simp [escapeCharFM, entityList]) ih
    by_cases h2 : c = '<'
    · exact h2 ▸ ContentSafe.entity "&lt;".data _ (by simp [escapeCharFM, entityList]) ih
    by_cases h3 : c = '>'
    · exact h3 ▸ ContentSafe.entity "&gt;".data _ (by simp [escapeCharFM, entityList]) ih
    by_cases h4 : c = '"'
    · exact h4 ▸ ContentSafe.entity "&quot;".data _ (by simp [escapeCharFM, entityList]) ih
    by_cases h5 : c = '\x27'
    · exact h5 ▸ ContentSafe.entity "&#039;".data _ (by simp [escapeCharFM, entityList]) ih
    have hchunk : escapeCharFM c = [c] := by simp [escapeCharFM, h1, h2, h3, h4, h5]
    rw [hchunk]
    exact ContentSafe.safeChar c _ (by simp [reservedChars, h1, h2, h3, h4, h5]) ih

theorem contentSafe_taggedItems (items : List JVal)
    (ih : ∀ v ∈ items, ContentSafe (generateTagged v)) : ContentSafe (taggedItems items) := by
  induction items with
  | nil => exact ContentSafe.nil
  | cons v rest ihr =>
    show ContentSafe (ttag "<li>" ++ generateTagged v ++ ttag "</li>" ++ taggedItems rest)
    exact ContentSafe.append
      (ContentSafe.append
        (ContentSafe.append (contentSafe_ttag _) (ih v (by simp)))
        (contentSafe_ttag _))
      (ihr (fun w hw => ih w (by simp [hw])))

theorem contentSafe_taggedRows (entries : List (String × JVal))
    (ih : ∀ p ∈ entries, ContentSafe (generateTagged p.2)) : ContentSafe (taggedRows entries) := by
  induction entries with
  | nil => exact ContentSafe.nil
  | cons p rest ihr =>
    obtain ⟨k, v⟩ := p
    show ContentSafe (ttag "<li><strong>" ++ ctag (escapeList k.data) ++ ttag ":</strong> " ++
      generateTagged v ++ ttag "</li>" ++ taggedRows rest)
    exact ContentSafe.append
      (ContentSafe.append
        (ContentSafe.append
          (ContentSafe.append
            (ContentSafe.append (contentSafe_ttag _) (contentSafe_ctag_escape _))
            (contentSafe_ttag _))
          (ih (k, v) (by simp)))
        (contentSafe_ttag _))
      (ihr (fun q hq => ih q (by simp [hq])))

/-- Every character of the rendered markup that originates from the value's
string content is escaped: it is a non-reserved character or part of a
complete character entity. -/
theorem contentSafe_generateTagged (v : JVal) : ContentSafe (generateTagged v) := by
  have main : ∀ (n : Nat) (w : JVal), sizeOf w = n → ContentSafe (generateTagged w) := by
    intro n
    induction n using Nat.strong_induction_on with
    | _ n ih =>
      intro w hw
      cases w with
      | undefined =>
        show ContentSafe (ttag "<span class=\"null\">null</span>")
        exact contentSafe_ttag _
      | null =>
        show ContentSafe (ttag "<span class=\"null\">null</span>")
        exact contentSafe_ttag _
      | str s => exact contentSafe_ctag_escape _
      | num m => exact contentSafe_ctag_escape _
      | bool b => exact contentSafe_ctag_escape _
      | arr items =>
        show ContentSafe (ttag "<ul>" ++ taggedItems items ++ ttag "</ul>")
        exact ContentSafe.append
          (ContentSafe.append (contentSafe_ttag _)
            (contentSafe_taggedItems items
              (fun x hx => ih (sizeOf x) (by rw [← hw]; exact sizeOf_lt_of_mem_arr hx) x rfl)))
          (contentSafe_ttag _)
      | obj entries =>
        show ContentSafe (ttag "<ul>" ++ taggedRows entries ++ ttag "</ul>")
        exact ContentSafe.append
          (ContentSafe.append (contentSafe_ttag _)
            (contentSafe_taggedRows entries
              (fun p hp => ih (sizeOf p.2)
                (by rw [← hw]; exact sizeOf_lt_of_mem_obj (k := p.1) (by simpa using hp))
                p.2 rfl)))
          (contentSafe_ttag _)
  exact main (sizeOf v) v rfl

/-- C1: for every JSON value, the markup produced by the renderer contains no
unescaped occurrence of `&`, `<`, `>`, `"`, `'` originating from string
content of the value: dropping the origin tags of the instrumented renderer
recovers exactly the markup of `generateHTML`, and in the tagged output every
content-origin character is either non-reserved or part of a complete
character entity, because every leaf string and every mapping key passes
through `escapeHTML` before being embedded. -/
theorem C1_render_escapes_content (v : JVal) :
    (generateTagged v).map Prod.fst = generateHTML v ∧ ContentSafe (generateTagged v) :=
  ⟨generateTagged_map_fst v, contentSafe_generateTagged v⟩

theorem lt_not_mem_escapeSpec (l : List Char) : '<' ∉ escapeSpec l := by
  induction l with
  | nil => simp [escapeSpec]
  | cons c cs ih =>
    simp only [escapeSpec, List.mem_append]
    rintro (h | h)
    · by_cases h1 : c = '&'
      · rw [h1] at h; revert h; decide
      by_cases h2 : c = '<'
      · rw [h2] at h; revert h; decide
      by_cases h3 : c = '>'
      · rw [h3] at h; revert h; decide
      by_cases h4 : c = '"'
      · rw [h4] at h; revert h; decide
      by_cases h5 : c = '\x27'
      · rw [h5] at h; revert h; decide
      · rw [show escapeCharFM c = [c] by simp [escapeCharFM, h1, h2, h3, h4, h5]] at h
        simp at h
        exact h2 h.symm
    · exact ih h

theorem ul_data_expand : "<ul>".data = '<' :: 'u' :: 'l' :: '>' :: [] := rfl

theorem nullMarker_expand : nullMarker = '<' :: 's' :: "pan class=\"null\">null</span>".data := rfl

theorem escapeList_ne_nullMarker (l : List Char) : escapeList l ≠ nullMarker := by
  intro h
  rw [escapeList_eq_escapeSpec] at h
  have hmem : '<' ∈ escapeSpec l := by
    rw [h]
    decide
  exact lt_not_mem_escapeSpec l hmem

/-- C8: rendering `null` and rendering `undefined` both yield the fixed
"null" marker element, and no other value renders to that marker: the output
for a primitive is an escaped string, which never contains the `<` the marker
starts with, and the output for an array or object starts with `<ul>`, whose
second character differs from the marker's. -/
theorem C8_null_marker :
    generateHTML .null = nullMarker ∧ generateHTML .undefined = nullMarker ∧
    ∀ v : JVal, generateHTML v = nullMarker → v = .null ∨ v = .undefined := by
  refine ⟨by simp [generateHTML, nullMarker], by simp [generateHTML, nullMarker], ?_⟩
  intro v hv
  cases v with
  | null => exact Or.inl rfl
  | undefined => exact Or.inr rfl
  | str s =>
    exact absurd (by simpa [generateHTML] using hv) (escapeList_ne_nullMarker _)
  | num n =>
    exact absurd (by simpa [generateHTML] using hv) (escapeList_ne_nullMarker _)
  | bool b =>
    exact absurd (by simpa [generateHTML] using hv) (escapeList_ne_nullMarker _)
  | arr items =>
    exfalso
    have h : "<ul>".data ++ generateItems items ++ "</ul>".data = nullMarker := by
      simpa [generateHTML] using hv
    rw [ul_data_expand, nullMarker_expand] at h
    simp only [List.cons_append, List.nil_append, List.cons.injEq] at h
    exact absurd h.2.1 (by decide)
  | obj entries =>
    exfalso
    have h : "<ul>".data ++ generateRows entries ++ "</ul>".data = nullMarker := by
      simpa [generateHTML] using hv
    rw [ul_data_expand, nullMarker_expand] at h
    simp only [List.cons_append, List.nil_append, List.cons.injEq] at h
    exact absurd h.2.1 (by decide)

/-- Witness for C8 at a concrete value: the marker equation of the theorem
applied at `null` discharges the implication's hypothesis. -/
theorem C8_null_marker_witness : JVal.null = JVal.null ∨ JVal.null = JVal.undefined :=
  C8_null_marker.2.2 JVal.null C8_null_marker.1

/-- Hexadecimal digit used by percent-encoding (uppercase). -/
def hexDigit (n : Nat) : Char :=
  if n < 10 then Char.ofNat (48 + n) else Char.ofNat (55 + n)

/-- UTF-8 byte sequence of a character, as natural numbers. -/
def utf8Bytes (c : Char) : List Nat :=
  let n := c.toNat
  if n < 128 then [n]
  else if n < 2048 then [192 + n / 64, 128 + n % 64]
  else if n < 65536 then [224 + n / 4096, 128 + n / 64 % 64, 128 + n % 64]
  else [240 + n / 262144, 128 + n / 4096 % 64, 128 + n / 64 % 64, 128 + n % 64]

/-- Models the host's `encodeURIComponent`: unreserved characters are kept,
every other character is percent-encoded byte by byte. -/
def encodeURIComponent (s : String) : String :=
  String.mk ((s.data.map fun c =>
    if c.isAlphanum || c = '-' || c = '_' || c = '.' || c = '!' || c = '~' ||
        c = '*' || c = '\x27' || c = '(' || c = ')' then [c]
    else (utf8Bytes c).map (fun b => ['%', hexDigit (b / 16), hexDigit (b % 16)])
      |>.flatten).flatten)

/-- The fixed API origin (src/main.js line 2). -/
def API_BASE : String := "https://api.postcodes.io"

/-- A transport-level response as the `fetch` platform primitive reports it:
a status code, a status text, and the JSON value `response.json()` parses the
body to. -/
structure FetchResponse where
  status : Nat
  statusText : String
  body : JVal

/-- `response.ok` of the fetch platform: status in the success range
200..299. -/
def FetchResponse.ok (r : FetchResponse) : Bool :=
  decide (200 ≤ r.status) && decide (r.status < 300)

/-- Outcome of one `fetch` call: the network call completes with a response,
or it cannot complete and rejects with an error message. -/
inductive FetchOutcome where
  | netError (msg : String)
  | response (r : FetchResponse)

/-- `getJSON` from src/main.js lines 88-94: propagate a network failure,
throw `"{status} {statusText}"` when the response is not ok, and otherwise
return the parsed JSON body. -/
def getJSON (url : String) (outcome : FetchOutcome) : Except String JVal :=
  match url, outcome with
  | _, .netError msg => .error msg
  | _, .response r =>
    if !r.ok then .error (toString r.status ++ " " ++ r.statusText)
    else .ok r.body

/-- `postJSON` from src/main.js lines 103-115: identical success and failure
semantics to `getJSON`; the JSON-serialized payload only affects the request
sent, not how the response is handled. -/
def postJSON (url : String) (payload : JVal) (outcome : FetchOutcome) : Except String JVal :=
  match url, payload, outcome with
  | _, _, .netError msg => .error msg
  | _, _, .response r =>
    if !r.ok then .error (toString r.status ++ " " ++ r.statusText)
    else .ok r.body

/-- One observable DOM or network effect of a click handler: clearing the
results container, issuing a GET (with its query parameters) or a POST (with
its JSON payload), or appending one result card. -/
inductive Ev where
  | clear
  | netGet (url : String) (params : List (String × String))
  | netPost (url : String) (payload : JVal)
  | card (title : String) (data : JVal)

/-- `renderError` from src/main.js lines 78-80: a card titled "Error" whose
body is the one-field object `{message}`. -/
def renderErrorEv (message : JVal) : Ev :=
  Ev.card "Error" (.obj [("message", message)])

/-- Is this event the appending of a card? -/
def isCard : Ev → Bool
  | .card _ _ => true
  | _ => false

/-- Is this event a network call? -/
def isNetCall : Ev → Bool
  | .netGet _ _ => true
  | .netPost _ _ => true
  | _ => false

/-- Number of cards a handler appended. -/
def cardCount (t : List Ev) : Nat := (t.filter isCard).length

/-- Number of network calls a handler made. -/
def netCount (t : List Ev) : Nat := (t.filter isNetCall).length

/-- `lookupPostcodeBtn` click handler (src/main.js lines 122-136). The
trimmed input field, and the dispatcher outcome as an oracle. -/
def lookupPostcodeHandler (postcodeInput : String) (resp : Except String JVal) : List Ev :=
  if jsTrim postcodeInput = "" then []
  else
    Ev.clear ::
    Ev.netGet (API_BASE ++ "/postcodes/" ++ encodeURIComponent (jsTrim postcodeInput)) [] ::
    match resp with
    | .error msg => [renderErrorEv (.str msg)]
    | .ok data =>
      if (data.get "status").strictEqNum 200 then
        [Ev.card ("Postcode: " ++ jsToUpperCase (jsTrim postcodeInput)) (data.get "result")]
      else
        [renderErrorEv (if truthy (data.get "error") then data.get "error"
          else .str ("No data found for " ++ jsTrim postcodeInput))]

/-- `validatePostcodeBtn` click handler (src/main.js lines 139-157): success
is decided by `typeof data.result === 'boolean'`, not by the envelope
status. -/
def validatePostcodeHandler (postcodeInput : String) (resp : Except String JVal) : List Ev :=
  if jsTrim postcodeInput = "" then []
  else
    Ev.clear ::
    Ev.netGet (API_BASE ++ "/postcodes/" ++ encodeURIComponent (jsTrim postcodeInput) ++
      "/validate") [] ::
    match resp with
    | .error msg => [renderErrorEv (.str msg)]
    | .ok data =>
      match data.get "result" with
      | .bool b =>
        [Ev.card ("Validate Postcode: " ++ jsToUpperCase (jsTrim postcodeInput))
          (.obj [("postcode", .str (jsToUpperCase (jsTrim postcodeInput))), ("valid", .bool b)])]
      | _ => [renderErrorEv (.str "Unexpected validation response")]

/-- `queryPostcodeBtn` click handler (src/main.js lines 160-179): one card
per match on a status-200 non-empty array result. -/
def queryPostcodeHandler (postcodeInput : String) (resp : Except String JVal) : List Ev :=
  if jsTrim postcodeInput = "" then []
  else
    Ev.clear ::
    Ev.netGet (API_BASE ++ "/postcodes") [("q", jsTrim postcodeInput), ("limit", "20")] ::
    match resp with
    | .error msg => [renderErrorEv (.str msg)]
    | .ok data =>
      match data.get "result" with
      | .arr items =>
        if (data.get "status").strictEqNum 200 && !items.isEmpty then
          items.enum.map fun p =>
            Ev.card ("Match " ++ toString (p.1 + 1) ++ ": " ++ jsToString (p.2.get "postcode")) p.2
        else
          [renderErrorEv (.str ("No matches found for query \x27" ++ jsTrim postcodeInput ++
            "\x27."))]
      | _ =>
        [renderErrorEv (.str ("No matches found for query \x27" ++ jsTrim postcodeInput ++
          "\x27."))]

/-- The entry list of the bulk lookup (src/main.js line 184): the textarea
split on newline or comma, each piece trimmed, empty pieces dropped. -/
def bulkEntries (text : String) : List String :=
  ((jsSplitNewlineComma text).map jsTrim).filter (fun s => !(s == ""))

/-- `bulkLookupBtn` click handler (src/main.js lines 182-208): empty entry
list aborts silently; more than 100 entries renders an error card before any
clearing or request; otherwise a POST is made and a status-200 array result
yields one card per item titled by its `query` field, with a `{error: "Not
found"}` body when the per-item result is falsy. -/
def bulkLookupHandler (text : String) (resp : Except String JVal) : List Ev :=
  if (bulkEntries text).isEmpty then []
  else if 100 < (bulkEntries text).length then
    [renderErrorEv (.str "Bulk lookup is limited to 100 postcodes.")]
  else
    Ev.clear ::
    Ev.netPost (API_BASE ++ "/postcodes")
      (.obj [("postcodes", .arr ((bulkEntries text).map JVal.str))]) ::
    match resp with
    | .error msg => [renderErrorEv (.str msg)]
    | .ok data =>
      match data.get "result" with
      | .arr items =>
        if (data.get "status").strictEqNum 200 then
          items.map fun item =>
            Ev.card ("Bulk Result for " ++ jsToString (item.get "query"))
              (if truthy (item.get "result") then item.get "result"
               else .obj [("error", .str "Not found")])
        else [renderErrorEv (.str "Unexpected bulk lookup response.")]
      | _ => [renderErrorEv (.str "Unexpected bulk lookup response.")]

/-- `autocompleteBtn` click handler (src/main.js lines 232-248): on a
status-200 non-empty array result it renders a single card holding the whole
array. -/
def autocompleteHandler (partInput : String) (resp : Except String JVal) : List Ev :=
  if jsTrim partInput = "" then []
  else
    Ev.clear ::
    Ev.netGet (API_BASE ++ "/postcodes/" ++ encodeURIComponent (jsTrim partInput) ++
      "/autocomplete") [("limit", "20")] ::
    match resp with
    | .error msg => [renderErrorEv (.str msg)]
    | .ok data =>
      match data.get "result" with
      | .arr items =>
        if (data.get "status").strictEqNum 200 && !items.isEmpty then
          [Ev.card ("Autocomplete for \x27" ++ jsTrim partInput ++ "\x27") (.arr items)]
        else
          [renderErrorEv (.str ("No autocomplete results for \x27" ++ jsTrim partInput ++
            "\x27."))]
      | _ =>
        [renderErrorEv (.str ("No autocomplete results for \x27" ++ jsTrim partInput ++ "\x27."))]

/-- `nearestPostcodeBtn` click handler (src/main.js lines 251-269). -/
def nearestPostcodeHandler (postcodeInput : String) (resp : Except String JVal) : List Ev :=
  if jsTrim postcodeInput = "" then []
  else
    Ev.clear ::
    Ev.netGet (API_BASE ++ "/postcodes/" ++ encodeURIComponent (jsTrim postcodeInput) ++
      "/nearest") [("limit", "10")] ::
    match resp with
    | .error msg => [renderErrorEv (.str msg)]
    | .ok data =>
      match data.get "result" with
      | .arr items =>
        if (data.get "status").strictEqNum 200 && !items.isEmpty then
          items.enum.map fun p =>
            Ev.card ("Nearest " ++ toString (p.1 + 1) ++ ": " ++ jsToString (p.2.get "postcode"))
              p.2
        else
          [renderErrorEv (.str ("No nearest postcodes found for \x27" ++ jsTrim postcodeInput ++
            "\x27."))]
      | _ =>
        [renderErrorEv (.str ("No nearest postcodes found for \x27" ++ jsTrim postcodeInput ++
          "\x27."))]

/-- `reverseGeocodeBtn` click handler (src/main.js lines 272-294). -/
def reverseGeocodeHandler (latInput lonInput : String) (resp : Except String JVal) : List Ev :=
  if jsTrim latInput = "" ∨ jsTrim lonInput = "" then []
  else
    Ev.clear ::
    Ev.netGet (API_BASE ++ "/postcodes")
      [("lat", jsTrim latInput), ("lon", jsTrim lonInput), ("limit", "10"), ("radius", "200")] ::
    match resp with
    | .error msg => [renderErrorEv (.str msg)]
    | .ok data =>
      match data.get "result" with
      | .arr items =>
        if (data.get "status").strictEqNum 200 && !items.isEmpty then
          items.enum.map fun p =>
            Ev.card ("Reverse Geocode " ++ toString (p.1 + 1) ++ ": " ++
              jsToString (p.2.get "postcode")) p.2
        else [renderErrorEv (.str "No postcodes found for the provided coordinates.")]
      | _ => [renderErrorEv (.str "No postcodes found for the provided coordinates.")]

/-- `bulkReverseBtn` click handler (src/main.js lines 297-323). `parsed` is
the oracle outcome of the host's `JSON.parse` on the trimmed input (`none`
when it throws); a parse failure or a non-array top level renders the invalid
JSON error card before any clearing or request. -/
def bulkReverseHandler (input : String) (parsed : Option JVal)
    (resp : Except String JVal) : List Ev :=
  if jsTrim input = "" then []
  else
    match parsed with
    | none => [renderErrorEv (.str "Invalid JSON for bulk reverse geocode.")]
    | some g =>
      if !g.isArr then [renderErrorEv (.str "Invalid JSON for bulk reverse geocode.")]
      else
        Ev.clear ::
        Ev.netPost (API_BASE ++ "/postcodes") (.obj [("geolocations", g)]) ::
        match resp with
        | .error msg => [renderErrorEv (.str msg)]
        | .ok data =>
          match data.get "result" with
          | .arr items =>
            if (data.get "status").strictEqNum 200 then
              items.enum.map fun p =>
                Ev.card ("Bulk Reverse Result " ++ toString (p.1 + 1)) (p.2.get "result")
            else [renderErrorEv (.str "Unexpected bulk reverse geocode response.")]
          | _ => [renderErrorEv (.str "Unexpected bulk reverse geocode response.")]

/-- `reverseOutcodeBtn` click handler (src/main.js lines 326-348). -/
def reverseOutcodeHandler (latInput lonInput : String) (resp : Except String JVal) : List Ev :=
  if jsTrim latInput = "" ∨ jsTrim lonInput = "" then []
  else
    Ev.clear ::
    Ev.netGet (API_BASE ++ "/outcodes")
      [("lat", jsTrim latInput), ("lon", jsTrim lonInput), ("limit", "10"), ("radius", "5000")] ::
    match resp with
    | .error msg => [renderErrorEv (.str msg)]
    | .ok data =>
      match data.get "result" with
      | .arr items =>
        if (data.get "status").strictEqNum 200 && !items.isEmpty then
          items.enum.map fun p =>
            Ev.card ("Reverse Outcode " ++ toString (p.1 + 1) ++ ": " ++
              jsToString (p.2.get "outcode")) p.2
        else [renderErrorEv (.str "No outcodes found for the provided coordinates.")]
      | _ => [renderErrorEv (.str "No outcodes found for the provided coordinates.")]

/-- `queryPlaceBtn` click handler (src/main.js lines 406-427). -/
def queryPlaceHandler (queryInput : String) (resp : Except String JVal) : List Ev :=
  if jsTrim queryInput = "" then []
  else
    Ev.clear ::
    Ev.netGet (API_BASE ++ "/places") [("q", jsTrim queryInput), ("limit", "20")] ::
    match resp with
    | .error msg => [renderErrorEv (.str msg)]
    | .ok data =>
      match data.get "result" with
      | .arr items =>
        if (data.get "status").strictEqNum 200 && !items.isEmpty then
          items.enum.map fun p =>
            Ev.card (if truthy (p.2.get "place_name") then jsToString (p.2.get "place_name")
                     else "Place " ++ toString (p.1 + 1)) p.2
        else
          [renderErrorEv (.str ("No places found matching \x27" ++ jsTrim queryInput ++ "\x27."))]
      | _ =>
        [renderErrorEv (.str ("No places found matching \x27" ++ jsTrim queryInput ++ "\x27."))]

/-- `lookupOutcodeBtn` click handler (src/main.js lines 351-365). -/
def lookupOutcodeHandler (outcodeInput : String) (resp : Except String JVal) : List Ev :=
  if jsTrim outcodeInput = "" then []
  else
    Ev.clear ::
    Ev.netGet (API_BASE ++ "/outcodes/" ++ encodeURIComponent (jsTrim outcodeInput)) [] ::
    match resp with
    | .error msg => [renderErrorEv (.str msg)]
    | .ok data =>
      if (data.get "status").strictEqNum 200 then
        [Ev.card ("Outcode: " ++ jsToUpperCase (jsTrim outcodeInput)) (data.get "result")]
      else
        [renderErrorEv (if truthy (data.get "error") then data.get "error"
          else .str ("No data found for outcode \x27" ++ jsTrim outcodeInput ++ "\x27."))]

/-- `nearestOutcodeBtn` click handler (src/main.js lines 368-386): one card
per nearest outcode on a status-200 non-empty array result. -/
def nearestOutcodeHandler (outcodeInput : String) (resp : Except String JVal) : List Ev :=
  if jsTrim outcodeInput = "" then []
  else
    Ev.clear ::
    Ev.netGet (API_BASE ++ "/outcodes/" ++ encodeURIComponent (jsTrim outcodeInput) ++
      "/nearest") [("limit", "10")] ::
    match resp with
    | .error msg => [renderErrorEv (.str msg)]
    | .ok data =>
      match data.get "result" with
      | .arr items =>
        if (data.get "status").strictEqNum 200 && !items.isEmpty then
          items.enum.map fun p =>
            Ev.card ("Nearest Outcode " ++ toString (p.1 + 1) ++ ": " ++
              jsToString (p.2.get "outcode")) p.2
        else
          [renderErrorEv (.str ("No nearest outcodes found for \x27" ++ jsTrim outcodeInput ++
            "\x27."))]
      | _ =>
        [renderErrorEv (.str ("No nearest outcodes found for \x27" ++ jsTrim outcodeInput ++
          "\x27."))]

/-- `lookupPlaceBtn` click handler (src/main.js lines 389-403); the place
code is not uppercased in the card title. -/
def lookupPlaceHandler (codeInput : String) (resp : Except String JVal) : List Ev :=
  if jsTrim codeInput = "" then []
  else
    Ev.clear ::
    Ev.netGet (API_BASE ++ "/places/" ++ encodeURIComponent (jsTrim codeInput)) [] ::
    match resp with
    | .error msg => [renderErrorEv (.str msg)]
    | .ok data =>
      if (data.get "status").strictEqNum 200 then
        [Ev.card ("Place Code: " ++ jsTrim codeInput) (data.get "result")]
      else
        [renderErrorEv (if truthy (data.get "error") then data.get "error"
          else .str ("No place found for code \x27" ++ jsTrim codeInput ++ "\x27."))]

/-- `terminatedLookupBtn` click handler (src/main.js lines 445-459). -/
def terminatedLookupHandler (postcodeInput : String) (resp : Except String JVal) : List Ev :=
  if jsTrim postcodeInput = "" then []
  else
    Ev.clear ::
    Ev.netGet (API_BASE ++ "/terminated_postcodes/" ++
      encodeURIComponent (jsTrim postcodeInput)) [] ::
    match resp with
    | .error msg => [renderErrorEv (.str msg)]
    | .ok data =>
      if (data.get "status").strictEqNum 200 then
        [Ev.card ("Terminated Postcode: " ++ jsToUpperCase (jsTrim postcodeInput))
          (data.get "result")]
      else
        [renderErrorEv (if truthy (data.get "error") then data.get "error"
          else .str ("No terminated data for \x27" ++ jsTrim postcodeInput ++ "\x27."))]

/-- `scottishLookupBtn` click handler (src/main.js lines 462-476). -/
def scottishLookupHandler (postcodeInput : String) (resp : Except String JVal) : List Ev :=
  if jsTrim postcodeInput = "" then []
  else
    Ev.clear ::
    Ev.netGet (API_BASE ++ "/scotland/postcodes/" ++
      encodeURIComponent (jsTrim postcodeInput)) [] ::
    match resp with
    | .error msg => [renderErrorEv (.str msg)]
    | .ok data =>
      if (data.get "status").strictEqNum 200 then
        [Ev.card ("Scottish Postcode: " ++ jsToUpperCase (jsTrim postcodeInput))
          (data.get "result")]
      else
        [renderErrorEv (if truthy (data.get "error") then data.get "error"
          else .str ("No Scottish data for \x27" ++ jsTrim postcodeInput ++ "\x27."))]

theorem cardCount_cons_nonCard (e : Ev) (t : List Ev) (he : isCard e = false) :
    cardCount (e :: t) = cardCount t := by
  simp [cardCount, List.filter, he]

theorem cardCount_clear_get (u : String) (ps : List (String × String)) (t : List Ev) :
    cardCount (Ev.clear :: Ev.netGet u ps :: t) = cardCount t := rfl

theorem cardCount_clear_post (u : String) (b : JVal) (t : List Ev) :
    cardCount (Ev.clear :: Ev.netPost u b :: t) = cardCount t := rfl

theorem cardCount_enum_map (items : List JVal) (f : Nat × JVal → Ev)
    (hf : ∀ p, isCard (f p) = true) :
    cardCount (items.enum.map f) = items.length := by
  unfold cardCount
  rw [List.filter_eq_self.mpr (fun e he => by
    obtain ⟨p, _, rfl⟩ := List.mem_map.mp he
    exact hf p)]
  rw [List.length_map, List.enum_length]

theorem isEmpty_false_of_ne_nil {α : Type} {items : List α} (h : items ≠ []) :
    items.isEmpty = false := by
  cases items with
  | nil => exact absurd rfl h
  | cons a l => rfl

theorem strictEqNum_200 {v : JVal} (h : v = JVal.num 200) : v.strictEqNum 200 = true := by
  rw [h]; decide

theorem queryPostcode_success (s : String) (data : JVal) (items : List JVal)
    (hs : jsTrim s ≠ "") (hstatus : data.get "status" = JVal.num 200)
    (hres : data.get "result" = JVal.arr items) (hne : items ≠ []) :
    queryPostcodeHandler s (.ok data) =
      Ev.clear :: Ev.netGet (API_BASE ++ "/postcodes") [("q", jsTrim s), ("limit", "20")] ::
        items.enum.map (fun p =>
          Ev.card ("Match " ++ toString (p.1 + 1) ++ ": " ++ jsToString (p.2.get "postcode"))
            p.2) := by
  simp [queryPostcodeHandler, if_neg hs, hres, strictEqNum_200 hstatus,
    isEmpty_false_of_ne_nil hne]

theorem nearestPostcode_success (s : String) (data : JVal) (items : List JVal)
    (hs : jsTrim s ≠ "") (hstatus : data.get "status" = JVal.num 200)
    (hres : data.get "result" = JVal.arr items) (hne : items ≠ []) :
    nearestPostcodeHandler s (.ok data) =
      Ev.clear ::
      Ev.netGet (API_BASE ++ "/postcodes/" ++ encodeURIComponent (jsTrim s) ++ "/nearest")
        [("limit", "10")] ::
      items.enum.map (fun p =>
        Ev.card ("Nearest " ++ toString (p.1 + 1) ++ ": " ++ jsToString (p.2.get "postcode"))
          p.2) := by
  simp [nearestPostcodeHandler, if_neg hs, hres, strictEqNum_200 hstatus,
    isEmpty_false_of_ne_nil hne]

theorem nearestOutcode_success (oc : String) (data : JVal) (items : List JVal)
    (hoc : jsTrim oc ≠ "") (hstatus : data.get "status" = JVal.num 200)
    (hres : data.get "result" = JVal.arr items) (hne : items ≠ []) :
    nearestOutcodeHandler oc (.ok data) =
      Ev.clear ::
      Ev.netGet (API_BASE ++ "/outcodes/" ++ encodeURIComponent (jsTrim oc) ++ "/nearest")
        [("limit", "10")] ::
      items.enum.map (fun p =>
        Ev.card ("Nearest Outcode " ++ toString (p.1 + 1) ++ ": " ++
          jsToString (p.2.get "outcode")) p.2) := by
  simp [nearestOutcodeHandler, if_neg hoc, hres, strictEqNum_200 hstatus,
    isEmpty_false_of_ne_nil hne]

theorem reverseGeocode_success (latInput lonInput : String) (data : JVal) (items : List JVal)
    (hlat : jsTrim latInput ≠ "") (hlon : jsTrim lonInput ≠ "")
    (hstatus : data.get "status" = JVal.num 200)
    (hres : data.get "result" = JVal.arr items) (hne : items ≠ []) :
    reverseGeocodeHandler latInput lonInput (.ok data) =
      Ev.clear ::
      Ev.netGet (API_BASE ++ "/postcodes")
        [("lat", jsTrim latInput), ("lon", jsTrim lonInput), ("limit", "10"), ("radius", "200")] ::
      items.enum.map (fun p =>
        Ev.card ("Reverse Geocode " ++ toString (p.1 + 1) ++ ": " ++
          jsToString (p.2.get "postcode")) p.2) := by
  have hguard : ¬(jsTrim latInput = "" ∨ jsTrim lonInput = "") := by
    rintro (h | h)
    · exact hlat h
    · exact hlon h
  simp [reverseGeocodeHandler, if_neg hguard, hres, strictEqNum_200 hstatus,
    isEmpty_false_of_ne_nil hne]

theorem reverseOutcode_success (latInput lonInput : String) (data : JVal) (items : List JVal)
    (hlat : jsTrim latInput ≠ "") (hlon : jsTrim lonInput ≠ "")
    (hstatus : data.get "status" = JVal.num 200)
    (hres : data.get "result" = JVal.arr items) (hne : items ≠ []) :
    reverseOutcodeHandler latInput lonInput (.ok data) =
      Ev.clear ::
      Ev.netGet (API_BASE ++ "/outcodes")
        [("lat", jsTrim latInput), ("lon", jsTrim lonInput), ("limit", "10"),
         ("radius", "5000")] ::
      items.enum.map (fun p =>
        Ev.card ("Reverse Outcode " ++ toString (p.1 + 1) ++ ": " ++
          jsToString (p.2.get "outcode")) p.2) := by
  have hguard : ¬(jsTrim latInput = "" ∨ jsTrim lonInput = "") := by
    rintro (h | h)
    · exact hlat h
    · exact hlon h
  simp [reverseOutcodeHandler, if_neg hguard, hres, strictEqNum_200 hstatus,
    isEmpty_false_of_ne_nil hne]

theorem queryPlace_success (s : String) (data : JVal) (items : List JVal)
    (hs : jsTrim s ≠ "") (hstatus : data.get "status" = JVal.num 200)
    (hres : data.get "result" = JVal.arr items) (hne : items ≠ []) :
    queryPlaceHandler s (.ok data) =
      Ev.clear :: Ev.netGet (API_BASE ++ "/places") [("q", jsTrim s), ("limit", "20")] ::
      items.enum.map (fun p =>
        Ev.card (if truthy (p.2.get "place_name") then jsToString (p.2.get "place_name")
                 else "Place " ++ toString (p.1 + 1)) p.2) := by
  simp [queryPlaceHandler, if_neg hs, hres, strictEqNum_200 hstatus,
    isEmpty_false_of_ne_nil hne]

theorem autocomplete_success (s : String) (data : JVal) (items : List JVal)
    (hs : jsTrim s ≠ "") (hstatus : data.get "status" = JVal.num 200)
    (hres : data.get "result" = JVal.arr items) (hne : items ≠ []) :
    autocompleteHandler s (.ok data) =
      [Ev.clear,
       Ev.netGet (API_BASE ++ "/postcodes/" ++ encodeURIComponent (jsTrim s) ++ "/autocomplete")
         [("limit", "20")],
       Ev.card ("Autocomplete for \x27" ++ jsTrim s ++ "\x27") (.arr items)] := by
  simp [autocompleteHandler, if_neg hs, hres, strictEqNum_200 hstatus,
    isEmpty_false_of_ne_nil hne]

/-- A status-200 envelope whose result is a two-element array. -/
def autoEnvelope : JVal :=
  .obj [("status", .num 200), ("result", .arr [.str "SW1A 0AA", .str "SW1A 0PW"])]

/-- C2 as stated is false on the code: the autocomplete handler, whose
success condition is a status-200 non-empty sequence result, renders a single
card holding the whole sequence, not one card per item. At this concrete
envelope the result sequence has two items but exactly one card is
rendered. -/
theorem C2_autocomplete_counterexample :
    autoEnvelope.get "status" = JVal.num 200 ∧
    autoEnvelope.get "result" = JVal.arr [.str "SW1A 0AA", .str "SW1A 0PW"] ∧
    (JVal.arr [.str "SW1A 0AA", .str "SW1A 0PW"]).isArr = true ∧
    [JVal.str "SW1A 0AA", .str "SW1A 0PW"].length = 2 ∧
    cardCount (autocompleteHandler "SW1A" (.ok autoEnvelope)) = 1 ∧
    cardCount (autocompleteHandler "SW1A" (.ok autoEnvelope)) ≠ 2 := by
  refine ⟨rfl, rfl, rfl, rfl, ?_, ?_⟩ <;> decide

/-- C2 amended: every action whose success condition is a non-empty sequence
result renders one card per item — except autocomplete. The query-postcodes,
nearest-postcodes, nearest-outcodes, reverse-geocode, reverse-outcode and
place-query handlers produce exactly `items.length` cards from a status-200
envelope with non-empty sequence result `items`; the autocomplete handler
instead renders exactly one card containing the entire sequence. -/
theorem C2_per_item_cards_amended (s latInput lonInput : String) (data : JVal)
    (items : List JVal) (hs : jsTrim s ≠ "") (hlat : jsTrim latInput ≠ "")
    (hlon : jsTrim lonInput ≠ "")
    (hstatus : data.get "status" = JVal.num 200)
    (hres : data.get "result" = JVal.arr items) (hne : items ≠ []) :
    cardCount (queryPostcodeHandler s (.ok data)) = items.length ∧
    cardCount (nearestPostcodeHandler s (.ok data)) = items.length ∧
    cardCount (nearestOutcodeHandler s (.ok data)) = items.length ∧
    cardCount (reverseGeocodeHandler latInput lonInput (.ok data)) = items.length ∧
    cardCount (reverseOutcodeHandler latInput lonInput (.ok data)) = items.length ∧
    cardCount (queryPlaceHandler s (.ok data)) = items.length ∧
    autocompleteHandler s (.ok data) =
      [Ev.clear,
       Ev.netGet (API_BASE ++ "/postcodes/" ++ encodeURIComponent (jsTrim s) ++ "/autocomplete")
         [("limit", "20")],
       Ev.card ("Autocomplete for \x27" ++ jsTrim s ++ "\x27") (.arr items)] ∧
    cardCount (autocompleteHandler s (.ok data)) = 1 := by
  refine ⟨?_, ?_, ?_, ?_, ?_, ?_, autocomplete_success s data items hs hstatus hres hne, ?_⟩
  · rw [queryPostcode_success s data items hs hstatus hres hne,
      cardCount_clear_get]
    exact cardCount_enum_map items _ (fun p => rfl)
  · rw [nearestPostcode_success s data items hs hstatus hres hne,
      cardCount_clear_get]
    exact cardCount_enum_map items _ (fun p => rfl)
  · rw [nearestOutcode_success s data items hs hstatus hres hne,
      cardCount_clear_get]
    exact cardCount_enum_map items _ (fun p => rfl)
  · rw [reverseGeocode_success latInput lonInput data items hlat hlon hstatus hres hne,
      cardCount_clear_get]
    exact cardCount_enum_map items _ (fun p => rfl)
  · rw [reverseOutcode_success latInput lonInput data items hlat hlon hstatus hres hne,
      cardCount_clear_get]
    exact cardCount_enum_map items _ (fun p => rfl)
  · rw [queryPlace_success s data items hs hstatus hres hne,
      cardCount_clear_get]
    exact cardCount_enum_map items _ (fun p => rfl)
  · rw [autocomplete_success s data items hs hstatus hres hne]
    rfl

/-- Witness for the amended C2 at a concrete envelope with two items. -/
theorem C2_per_item_cards_amended_witness :
    cardCount (queryPostcodeHandler "SW1A" (.ok autoEnvelope)) =
      [JVal.str "SW1A 0AA", .str "SW1A 0PW"].length ∧
    cardCount (nearestOutcodeHandler "SW1A" (.ok autoEnvelope)) =
      [JVal.str "SW1A 0AA", .str "SW1A 0PW"].length ∧
    cardCount (autocompleteHandler "SW1A" (.ok autoEnvelope)) = 1 := by
  have h := C2_per_item_cards_amended "SW1A" "51.5" "-0.14" autoEnvelope
    [.str "SW1A 0AA", .str "SW1A 0PW"] (by decide) (by decide) (by decide) rfl rfl (by simp)
  exact ⟨h.1, h.2.2.1, h.2.2.2.2.2.2.2⟩

/-- C3: a bulk-lookup input whose split-and-trimmed non-empty entry list
exceeds 100 entries yields exactly one error card naming the 100-entry limit
and no network call. -/
theorem C3_bulk_limit (text : String) (resp : Except String JVal)
    (h : 100 < (bulkEntries text).length) :
    bulkLookupHandler text resp =
      [renderErrorEv (.str "Bulk lookup is limited to 100 postcodes.")] ∧
    netCount (bulkLookupHandler text resp) = 0 := by
  have hne : (bulkEntries text).isEmpty = false := by
    cases he : bulkEntries text with
    | nil => rw [he] at h; simp at h
    | cons a l => rfl
  have ht : bulkLookupHandler text resp =
      [renderErrorEv (.str "Bulk lookup is limited to 100 postcodes.")] := by
    simp [bulkLookupHandler, hne, h]
  exact ⟨ht, by rw [ht]; rfl⟩

/-- 101 single-character entries separated by commas. -/
def text101 : String := String.mk ((List.replicate 100 ['A', ',']).flatten ++ ['A'])

/-- Witness for C3: a concrete 101-entry input. -/
theorem C3_bulk_limit_witness :
    bulkLookupHandler text101 (.error "unused") =
      [renderErrorEv (.str "Bulk lookup is limited to 100 postcodes.")] ∧
    netCount (bulkLookupHandler text101 (.error "unused")) = 0 :=
  C3_bulk_limit text101 (.error "unused") (by decide)

/-- C4: a non-empty bulk-reverse-geocode input that fails to parse as JSON,
or parses to a non-array top level, yields exactly one error card stating
invalid JSON and no network call. -/
theorem C4_bulk_reverse_invalid_json (input : String) (parsed : Option JVal)
    (resp : Except String JVal) (hne : jsTrim input ≠ "")
    (hbad : parsed = none ∨ ∃ g, parsed = some g ∧ g.isArr = false) :
    bulkReverseHandler input parsed resp =
      [renderErrorEv (.str "Invalid JSON for bulk reverse geocode.")] ∧
    netCount (bulkReverseHandler input parsed resp) = 0 := by
  have ht : bulkReverseHandler input parsed resp =
      [renderErrorEv (.str "Invalid JSON for bulk reverse geocode.")] := by
    unfold bulkReverseHandler
    rw [if_neg hne]
    rcases hbad with hb | ⟨g, hg, hga⟩
    · rw [hb]
    · rw [hg]
      simp [hga]
  exact ⟨ht, by rw [ht]; rfl⟩

/-- Witness for C4: the input text `not json` does not parse. -/
theorem C4_bulk_reverse_invalid_json_witness :
    bulkReverseHandler "not json" none (.error "unused") =
      [renderErrorEv (.str "Invalid JSON for bulk reverse geocode.")] ∧
    netCount (bulkReverseHandler "not json" none (.error "unused")) = 0 :=
  C4_bulk_reverse_invalid_json "not json" none (.error "unused") (by decide) (Or.inl rfl)

theorem splitChars_mem_subset (p : Char → Bool) (l : List Char) :
    ∀ piece ∈ splitChars p l, ∀ c ∈ piece, c ∈ l := by
  induction l with
  | nil =>
    intro piece hp c hc
    simp [splitChars] at hp
    subst hp
    simp at hc
  | cons a as ih =>
    intro piece hp c hc
    simp only [splitChars] at hp
    by_cases hpa : p a
    · rw [if_pos hpa] at hp
      rcases List.mem_cons.mp hp with h | h
      · subst h
        simp at hc
      · exact List.mem_cons_of_mem _ (ih piece h c hc)
    · rw [if_neg hpa] at hp
      cases hsc : splitChars p as with
      | nil =>
        rw [hsc] at hp
        simp at hp
        subst hp
        simp at hc
        subst hc
        exact List.mem_cons_self _ _
      | cons q qs =>
        rw [hsc] at hp
        rcases List.mem_cons.mp hp with h | h
        · subst h
          rcases List.mem_cons.mp hc with h2 | h2
          · subst h2
            exact List.mem_cons_self _ _
          · exact List.mem_cons_of_mem _
              (ih q (by rw [hsc]; exact List.mem_cons_self _ _) c h2)
        · exact List.mem_cons_of_mem _
            (ih piece (by rw [hsc]; exact List.mem_cons_of_mem _ h) c hc)

theorem jsTrim_eq_empty_of_all_ws (l : List Char) (h : ∀ c ∈ l, c.isWhitespace) :
    jsTrim (String.mk l) = "" := by
  unfold jsTrim
  have h1 : (String.mk l).data = l := rfl
  rw [h1, List.dropWhile_eq_nil_iff.mpr h]
  rfl

theorem allWhitespace_of_jsTrim_empty (s : String) (h : jsTrim s = "") :
    ∀ c ∈ s.data, c.isWhitespace := by
  unfold jsTrim at h
  have hdata := congrArg String.data h
  have hnil : ((s.data.dropWhile Char.isWhitespace).reverse.dropWhile
      Char.isWhitespace).reverse = [] := hdata
  rw [List.reverse_eq_nil_iff] at hnil
  have h2 := List.dropWhile_eq_nil_iff.mp hnil
  have h3 : ∀ c ∈ s.data.dropWhile Char.isWhitespace, c.isWhitespace :=
    fun c hc => h2 c (List.mem_reverse.mpr hc)
  intro c hc
  have hsplit := List.takeWhile_append_dropWhile Char.isWhitespace s.data
  rw [← hsplit] at hc
  rcases List.mem_append.mp hc with h4 | h4
  · exact List.mem_takeWhile_imp h4
  · exact h3 c h4

/-- A bulk input whose whole text trims to empty has an empty entry list:
every split piece consists of whitespace only, so trimming and filtering drop
them all. -/
theorem bulkEntries_empty_of_trim_empty (text : String) (h : jsTrim text = "") :
    bulkEntries text = [] := by
  have hall := allWhitespace_of_jsTrim_empty text h
  unfold bulkEntries jsSplitNewlineComma
  rw [List.map_map, List.filter_eq_nil_iff.mpr]
  intro a ha
  obtain ⟨piece, hpiece, rfl⟩ := List.mem_map.mp ha
  have htrim : jsTrim (String.mk piece) = "" :=
    jsTrim_eq_empty_of_all_ws piece
      (fun c hc => hall c (splitChars_mem_subset _ _ piece hpiece c hc))
  simp [htrim]

/-- C5: every handler with a required input field aborts silently when that
field is empty after trimming: the trace is empty, so no request is made and
no card of any kind is rendered. Stated for every modelled handler with a
required field — the eleven single-field handlers, the bulk lookup (whose
whitespace-only textarea yields an empty entry list), the bulk reverse
geocode, and the two coordinate handlers, which require both latitude and
longitude. Only the two random-sample handlers have no required field. -/
theorem C5_empty_input_silent (s latInput lonInput : String) (parsed : Option JVal)
    (resp : Except String JVal) (hs : jsTrim s = "") :
    lookupPostcodeHandler s resp = [] ∧
    validatePostcodeHandler s resp = [] ∧
    queryPostcodeHandler s resp = [] ∧
    autocompleteHandler s resp = [] ∧
    nearestPostcodeHandler s resp = [] ∧
    queryPlaceHandler s resp = [] ∧
    lookupOutcodeHandler s resp = [] ∧
    nearestOutcodeHandler s resp = [] ∧
    lookupPlaceHandler s resp = [] ∧
    terminatedLookupHandler s resp = [] ∧
    scottishLookupHandler s resp = [] ∧
    bulkLookupHandler s resp = [] ∧
    bulkReverseHandler s parsed resp = [] ∧
    ((jsTrim latInput = "" ∨ jsTrim lonInput = "") →
      reverseGeocodeHandler latInput lonInput resp = [] ∧
      reverseOutcodeHandler latInput lonInput resp = []) := by
  refine ⟨?_, ?_, ?_, ?_, ?_, ?_, ?_, ?_, ?_, ?_, ?_, ?_, ?_, fun h => ⟨?_, ?_⟩⟩
  · simp [lookupPostcodeHandler, hs]
  · simp [validatePostcodeHandler, hs]
  · simp [queryPostcodeHandler, hs]
  · simp [autocompleteHandler, hs]
  · simp [nearestPostcodeHandler, hs]
  · simp [queryPlaceHandler, hs]
  · simp [lookupOutcodeHandler, hs]
  · simp [nearestOutcodeHandler, hs]
  · simp [lookupPlaceHandler, hs]
  · simp [terminatedLookupHandler, hs]
  · simp [scottishLookupHandler, hs]
  · simp [bulkLookupHandler, bulkEntries_empty_of_trim_empty s hs]
  · simp [bulkReverseHandler, hs]
  · unfold reverseGeocodeHandler
    rw [if_pos h]
  · unfold reverseOutcodeHandler
    rw [if_pos h]

/-- Witness for C5: whitespace-only input silences the postcode lookup, the
bulk lookup and the reverse geocode with an empty latitude. -/
theorem C5_empty_input_silent_witness :
    lookupPostcodeHandler " \n " (.error "network down") = [] ∧
    bulkLookupHandler " \n " (.error "network down") = [] ∧
    reverseGeocodeHandler "" "1.5" (.error "network down") = [] := by
  have h := C5_empty_input_silent " \n " "" "1.5" none (.error "network down") (by decide)
  exact ⟨h.1, h.2.2.2.2.2.2.2.2.2.2.2.1,
    ((h.2.2.2.2.2.2.2.2.2.2.2.2.2) (Or.inl (by decide))).1⟩

/-- C6: the request dispatchers fail exactly on a network failure or a
non-success transport status; a non-success status yields a failure message
carrying the status code and status text, and a success status yields the
parsed JSON body — identically for `getJSON` and `postJSON`. -/
theorem C6_dispatch_semantics (url : String) (payload : JVal) (outcome : FetchOutcome) :
    (∀ msg, outcome = .netError msg →
      getJSON url outcome = .error msg ∧ postJSON url payload outcome = .error msg) ∧
    (∀ r, outcome = .response r →
      (¬(200 ≤ r.status ∧ r.status < 300) →
        getJSON url outcome = .error (toString r.status ++ " " ++ r.statusText) ∧
        postJSON url payload outcome = .error (toString r.status ++ " " ++ r.statusText)) ∧
      ((200 ≤ r.status ∧ r.status < 300) →
        getJSON url outcome = .ok r.body ∧ postJSON url payload outcome = .ok r.body)) := by
  constructor
  · rintro msg rfl
    exact ⟨rfl, rfl⟩
  · rintro r rfl
    constructor
    · intro h
      have hok : r.ok = false := by
        simp only [FetchResponse.ok, Bool.and_eq_false_iff, decide_eq_false_iff_not]
        omega
      constructor
      · simp [getJSON, hok]
      · simp [postJSON, hok]
    · intro h
      have hok : r.ok = true := by
        simp only [FetchResponse.ok, Bool.and_eq_true, decide_eq_true_eq]
        omega
      constructor
      · simp [getJSON, hok]
      · simp [postJSON, hok]

/-- Witness for C6: a 404 response fails with its code and text. -/
theorem C6_dispatch_semantics_witness :
    getJSON "https://api.postcodes.io/postcodes/XX" (.response ⟨404, "Not Found", .null⟩) =
      .error "404 Not Found" ∧
    postJSON "https://api.postcodes.io/postcodes/XX" .null (.response ⟨404, "Not Found", .null⟩) =
      .error "404 Not Found" := by
  have h := ((C6_dispatch_semantics "https://api.postcodes.io/postcodes/XX" .null
    (.response ⟨404, "Not Found", .null⟩)).2 ⟨404, "Not Found", .null⟩ rfl).1 (by decide)
  exact h

/-- C7: the validation handler succeeds exactly when the envelope's `result`
is a boolean — regardless of the `status` field. A boolean result renders a
card holding the uppercased postcode and that boolean; any non-boolean result
renders an error card. -/
theorem C7_validate_boolean (postcodeInput : String) (data : JVal)
    (hne : jsTrim postcodeInput ≠ "") :
    (∀ b, data.get "result" = JVal.bool b →
      validatePostcodeHandler postcodeInput (.ok data) =
        [Ev.clear,
         Ev.netGet (API_BASE ++ "/postcodes/" ++ encodeURIComponent (jsTrim postcodeInput) ++
           "/validate") [],
         Ev.card ("Validate Postcode: " ++ jsToUpperCase (jsTrim postcodeInput))
           (.obj [("postcode", .str (jsToUpperCase (jsTrim postcodeInput))),
                  ("valid", .bool b)])]) ∧
    ((∀ b, data.get "result" ≠ JVal.bool b) →
      validatePostcodeHandler postcodeInput (.ok data) =
        [Ev.clear,
         Ev.netGet (API_BASE ++ "/postcodes/" ++ encodeURIComponent (jsTrim postcodeInput) ++
           "/validate") [],
         renderErrorEv (.str "Unexpected validation response")]) := by
  constructor
  · intro b hb
    simp [validatePostcodeHandler, if_neg hne, hb]
  · intro hb
    cases hres : data.get "result" with
    | bool b => exact absurd hres (hb b)
    | undefined => simp [validatePostcodeHandler, if_neg hne, hres]
    | null => simp [validatePostcodeHandler, if_neg hne, hres]
    | str s => simp [validatePostcodeHandler, if_neg hne, hres]
    | num n => simp [validatePostcodeHandler, if_neg hne, hres]
    | arr items => simp [validatePostcodeHandler, if_neg hne, hres]
    | obj entries => simp [validatePostcodeHandler, if_neg hne, hres]

/-- Witness for C7: a boolean-result envelope (even with a non-200 status)
renders the success card for the uppercased postcode. -/
theorem C7_validate_boolean_witness :
    validatePostcodeHandler "sw1a 1aa"
      (.ok (JVal.obj [("status", .num 404), ("result", .bool true)])) =
      [Ev.clear,
       Ev.netGet (API_BASE ++ "/postcodes/" ++ encodeURIComponent (jsTrim "sw1a 1aa") ++
         "/validate") [],
       Ev.card ("Validate Postcode: " ++ jsToUpperCase (jsTrim "sw1a 1aa"))
         (.obj [("postcode", .str (jsToUpperCase (jsTrim "sw1a 1aa"))),
                ("valid", .bool true)])] :=
  (C7_validate_boolean "sw1a 1aa" (JVal.obj [("status", .num 404), ("result", .bool true)])
    (by decide)).1 true rfl

theorem bulkLookup_over100_trace (text : String) (resp : Except String JVal)
    (h : 100 < (bulkEntries text).length) :
    bulkLookupHandler text resp =
      [renderErrorEv (.str "Bulk lookup is limited to 100 postcodes.")] := by
  have hne : (bulkEntries text).isEmpty = false := by
    cases he : bulkEntries text with
    | nil => rw [he] at h; simp at h
    | cons a l => rfl
  simp [bulkLookupHandler, hne, h]

theorem bulkReverse_invalid_trace (input : String) (parsed : Option JVal)
    (resp : Except String JVal) (hne : jsTrim input ≠ "")
    (hbad : parsed = none ∨ ∃ g, parsed = some g ∧ g.isArr = false) :
    bulkReverseHandler input parsed resp =
      [renderErrorEv (.str "Invalid JSON for bulk reverse geocode.")] := by
  unfold bulkReverseHandler
  rw [if_neg hne]
  rcases hbad with hb | ⟨g, hg, hga⟩
  · rw [hb]
  · rw [hg]
    simp [hga]

/-- C9: the two pre-dispatch validation failures (bulk lookup over the
100-entry cap, bulk reverse geocode with malformed or non-array JSON) append
their error card without clearing the results area first — their trace is the
error card alone and contains no clear event — whereas every other rendering
path of every modelled handler begins by clearing the area. -/
theorem C9_predispatch_no_clear :
    (∀ text resp, 100 < (bulkEntries text).length →
      bulkLookupHandler text resp =
        [renderErrorEv (.str "Bulk lookup is limited to 100 postcodes.")] ∧
      Ev.clear ∉ bulkLookupHandler text resp) ∧
    (∀ input parsed resp, jsTrim input ≠ "" →
      (parsed = none ∨ ∃ g, parsed = some g ∧ g.isArr = false) →
      bulkReverseHandler input parsed resp =
        [renderErrorEv (.str "Invalid JSON for bulk reverse geocode.")] ∧
      Ev.clear ∉ bulkReverseHandler input parsed resp) ∧
    (∀ text resp, bulkEntries text ≠ [] → (bulkEntries text).length ≤ 100 →
      (bulkLookupHandler text resp).head? = some Ev.clear) ∧
    (∀ input g resp, jsTrim input ≠ "" → g.isArr = true →
      (bulkReverseHandler input (some g) resp).head? = some Ev.clear) ∧
    (∀ s resp, jsTrim s ≠ "" → (lookupPostcodeHandler s resp).head? = some Ev.clear) ∧
    (∀ s resp, jsTrim s ≠ "" → (validatePostcodeHandler s resp).head? = some Ev.clear) ∧
    (∀ s resp, jsTrim s ≠ "" → (queryPostcodeHandler s resp).head? = some Ev.clear) ∧
    (∀ s resp, jsTrim s ≠ "" → (autocompleteHandler s resp).head? = some Ev.clear) ∧
    (∀ s resp, jsTrim s ≠ "" → (nearestPostcodeHandler s resp).head? = some Ev.clear) ∧
    (∀ s resp, jsTrim s ≠ "" → (queryPlaceHandler s resp).head? = some Ev.clear) ∧
    (∀ latInput lonInput resp, jsTrim latInput ≠ "" → jsTrim lonInput ≠ "" →
      (reverseGeocodeHandler latInput lonInput resp).head? = some Ev.clear ∧
      (reverseOutcodeHandler latInput lonInput resp).head? = some Ev.clear) := by
  refine ⟨?_, ?_, ?_, ?_, ?_, ?_, ?_, ?_, ?_, ?_, ?_⟩
  · intro text resp h
    have ht := bulkLookup_over100_trace text resp h
    rw [ht]
    exact ⟨rfl, by simp [renderErrorEv]⟩
  · intro input parsed resp hne hbad
    have ht := bulkReverse_invalid_trace input parsed resp hne hbad
    rw [ht]
    exact ⟨rfl, by simp [renderErrorEv]⟩
  · intro text resp h1 h2
    have hne : (bulkEntries text).isEmpty = false := isEmpty_false_of_ne_nil h1
    have hle : ¬(100 < (bulkEntries text).length) := by omega
    simp [bulkLookupHandler, hne, if_neg hle]
  · intro input g resp hinput hga
    simp [bulkReverseHandler, if_neg hinput, hga]
  · intro s resp hs
    simp [lookupPostcodeHandler, if_neg hs]
  · intro s resp hs
    simp [validatePostcodeHandler, if_neg hs]
  · intro s resp hs
    simp [queryPostcodeHandler, if_neg hs]
  · intro s resp hs
    simp [autocompleteHandler, if_neg hs]
  · intro s resp hs
    simp [nearestPostcodeHandler, if_neg hs]
  · intro s resp hs
    simp [queryPlaceHandler, if_neg hs]
  · intro latInput lonInput resp hlat hlon
    have hguard : ¬(jsTrim latInput = "" ∨ jsTrim lonInput = "") := by
      rintro (h | h)
      · exact hlat h
      · exact hlon h
    constructor
    · simp [reverseGeocodeHandler, if_neg hguard]
    · simp [reverseOutcodeHandler, if_neg hguard]

/-- Witness for C9: the over-limit bulk input leaves previous cards in place
(no clear event), whereas a small bulk input's trace starts with a clear. -/
theorem C9_predispatch_no_clear_witness :
    Ev.clear ∉ bulkLookupHandler text101 (.error "w9") ∧
    (bulkLookupHandler "SW1A 1AA" (.error "w9")).head? = some Ev.clear := by
  constructor
  · exact (C9_predispatch_no_clear.1 text101 (.error "w9") (by decide)).2
  · exact C9_predispatch_no_clear.2.2.1 "SW1A 1AA" (.error "w9") (by decide) (by decide)

theorem bulkTitle_ne_error (x : String) : ("Bulk Result for " ++ x) ≠ "Error" := by
  intro h
  have hlen := congrArg String.length h
  rw [String.length_append] at hlen
  have h16 : ("Bulk Result for " : String).length = 16 := rfl
  have h5 : ("Error" : String).length = 5 := rfl
  rw [h16, h5] at hlen
  omega

theorem bulkLookup_success (text : String) (data : JVal) (items : List JVal)
    (h1 : bulkEntries text ≠ []) (h2 : (bulkEntries text).length ≤ 100)
    (hstatus : data.get "status" = JVal.num 200)
    (hres : data.get "result" = JVal.arr items) :
    bulkLookupHandler text (.ok data) =
      Ev.clear ::
      Ev.netPost (API_BASE ++ "/postcodes")
        (.obj [("postcodes", .arr ((bulkEntries text).map JVal.str))]) ::
      items.map (fun item =>
        Ev.card ("Bulk Result for " ++ jsToString (item.get "query"))
          (if truthy (item.get "result") then item.get "result"
           else JVal.obj [("error", .str "Not found")])) := by
  have hne : (bulkEntries text).isEmpty = false := isEmpty_false_of_ne_nil h1
  have hle : ¬(100 < (bulkEntries text).length) := by omega
  simp [bulkLookupHandler, hne, if_neg hle, hres, strictEqNum_200 hstatus]

/-- C10: a successful bulk lookup (status-200 envelope with a sequence
result) renders one card per item, each titled "Bulk Result for " followed by
the item's `query` field; an item whose per-item `result` is absent or null
still produces a normal card — its title is never "Error" — whose body is the
one-field object `{error: "Not found"}`. -/
theorem C10_bulk_success_cards (text : String) (data : JVal) (items : List JVal)
    (h1 : bulkEntries text ≠ []) (h2 : (bulkEntries text).length ≤ 100)
    (hstatus : data.get "status" = JVal.num 200)
    (hres : data.get "result" = JVal.arr items) :
    bulkLookupHandler text (.ok data) =
      Ev.clear ::
      Ev.netPost (API_BASE ++ "/postcodes")
        (.obj [("postcodes", .arr ((bulkEntries text).map JVal.str))]) ::
      items.map (fun item =>
        Ev.card ("Bulk Result for " ++ jsToString (item.get "query"))
          (if truthy (item.get "result") then item.get "result"
           else JVal.obj [("error", .str "Not found")])) ∧
    cardCount (bulkLookupHandler text (.ok data)) = items.length ∧
    (∀ item ∈ items, ("Bulk Result for " ++ jsToString (item.get "query")) ≠ "Error") ∧
    (∀ item ∈ items, item.get "result" = JVal.null ∨ item.get "result" = JVal.undefined →
      (if truthy (item.get "result") then item.get "result"
       else JVal.obj [("error", .str "Not found")]) = JVal.obj [("error", .str "Not found")]) := by
  have ht := bulkLookup_success text data items h1 h2 hstatus hres
  refine ⟨ht, ?_, fun item _ => bulkTitle_ne_error _, fun item _ hnull => ?_⟩
  · rw [ht, cardCount_clear_post]
    unfold cardCount
    rw [List.filter_eq_self.mpr (fun e he => by
      obtain ⟨item, _, rfl⟩ := List.mem_map.mp he
      rfl)]
    exact List.length_map _ _
  · rcases hnull with h | h <;> rw [h] <;> rfl

/-- A status-200 bulk envelope whose single item has a null per-item
result. -/
def bulkEnvelope : JVal :=
  .obj [("status", .num 200),
        ("result", .arr [.obj [("query", .str "SW1A 1AA"), ("result", .null)]])]

/-- Witness for C10 at a concrete one-item envelope with a null per-item
result. -/
theorem C10_bulk_success_cards_witness :
    bulkLookupHandler "SW1A 1AA" (.ok bulkEnvelope) =
      Ev.clear ::
      Ev.netPost (API_BASE ++ "/postcodes")
        (.obj [("postcodes", .arr ((bulkEntries "SW1A 1AA").map JVal.str))]) ::
      [JVal.obj [("query", .str "SW1A 1AA"), ("result", .null)]].map (fun item =>
        Ev.card ("Bulk Result for " ++ jsToString (item.get "query"))
          (if truthy (item.get "result") then item.get "result"
           else JVal.obj [("error", .str "Not found")])) :=
  (C10_bulk_success_cards "SW1A 1AA" bulkEnvelope
    [JVal.obj [("query", .str "SW1A 1AA"), ("result", .null)]]
    (by decide) (by decide) rfl rfl).1
